import Mathlib

/-
Verification of the cluster maintenance reconciliation engine
(Plan-vs-Local diff) described in spec.md.

The repository snapshot contains only the subsystem's test suite
(src/tests/Maintenance/MaintenanceTest.cpp); the implementation of
`diffPlanLocal` and `ActionDescription` (Cluster/Maintenance.cpp,
Cluster/ActionDescription.cpp) is not part of the snapshot.  The
definitions below are therefore modelled from the specification
(spec.md sections 3, 4.1, 4.2, 4.3), kept consistent with the test
helpers that are present in the snapshot (leadership enums, sentinel
usage, expected actions).
-/

namespace ArangoMaintenance

/-- Modelled from the spec: the sentinel string stored in a local
shard's theLeader field for "resigned, unknown successor"
(ResignShardLeadership.LeaderNotYetKnownString in the source; the
exact literal is not in the snapshot, only that it is a distinguished
constant different from every real server id). -/
def resignedLeaderSentinel : String := "LEADER_NOT_YET_KNOWN"

/-- Modelled from the spec: the sentinel string stored in a local
shard's theLeader field for "rebooted, unknown predecessor"
(maintenance LEADER_NOT_YET_KNOWN constant; the exact literal is not
in the snapshot, only that it is distinct from the resigned
sentinel). -/
def rebootedLeaderSentinel : String := "REBOOT_LEADER_NOT_YET_KNOWN"

/-- Modelled from the spec: error condition raised by the throwing
property accessor of ActionDescription on a missing key (a
distinguishable "key not found" failure). -/
inductive ActionError where
| keyNotFound (key : String)
deriving DecidableEq

/-- Modelled from the spec (section 4.1): an ActionDescription is an
immutable map from property name to string value, a priority, a
"run even when not a leader" flag, and an optional structured payload.
The structured payload is modelled as a flat key/value object, which
is the shape every claim exercises. -/
structure ActionDescription where
  properties : List (String × String)
  priorityValue : Int
  runEvenIfNotLeader : Bool
  payload : Option (List (String × String))
deriving DecidableEq

/-- Modelled from the spec: the normal action priority constant. -/
def NORMAL_PRIORITY : Int := 1

/-- Throwing accessor: `name()` returns the "name" property. -/
def ActionDescription.name (d : ActionDescription) : String :=
  (d.properties.lookup "name").getD ""

/-- Throwing accessor `get(key)`: value for key, or a distinguishable
"key not found" error when the key is absent. -/
def ActionDescription.get (d : ActionDescription) (key : String) :
    Except ActionError String :=
  match d.properties.lookup key with
  | some v => Except.ok v
  | none => Except.error (ActionError.keyNotFound key)

/-- Non-throwing accessor `get(key, value)`: the caller supplies the
current contents of the output string; on success the value is written
and the result is ok (true), on a missing key the output string is
left unchanged and the result is a failure (false). -/
def ActionDescription.getOut (d : ActionDescription) (key : String)
    (out : String) : Bool × String :=
  match d.properties.lookup key with
  | some v => (true, v)
  | none => (false, out)

/-- Presence check `has(key)`. -/
def ActionDescription.has (d : ActionDescription) (key : String) : Bool :=
  (d.properties.lookup key).isSome

/-- Plan leadership per shard, as in the source test enum
PLAN_LEADERSHIP_TYPE (MaintenanceTest.cpp). -/
inductive PlanLeadershipType where
| SELF
| RESIGNED_SELF
| OTHER
| RESIGNED_OTHER
deriving DecidableEq

/-- Local leadership per shard, as in the source test enum
LOCAL_LEADERSHIP_TYPE (MaintenanceTest.cpp). -/
inductive LocalLeadershipType where
| SELF
| OTHER
| RESIGNED
| REBOOTED
deriving DecidableEq

/-- Modelled from the spec: a leader id prefixed with an underscore
denotes resigned leadership; stripping the marker yields the server
id. -/
def stripResignMarker (s : String) : String :=
  match s.data with
  | List.cons c rest => if c = '_' then String.mk rest else s
  | List.nil => s

/-- Modelled from the spec: whether a Plan server entry carries the
resignation marker (a leading underscore). -/
def hasResignMarker (s : String) : Bool :=
  match s.data with
  | List.cons c _ => c = '_'
  | List.nil => false

/-- Modelled from the spec (section 4.3): classify what the Plan says
about this server's leadership of a shard, from the shard's ordered
server list (index 0 is the intended leader, possibly marked
resigned). -/
def planLeadership (servers : List String) (serverId : String) :
    PlanLeadershipType :=
  match servers with
  | [] => PlanLeadershipType.OTHER
  | leader :: _ =>
    if stripResignMarker leader == serverId then
      if hasResignMarker leader then PlanLeadershipType.RESIGNED_SELF
      else PlanLeadershipType.SELF
    else
      if hasResignMarker leader then PlanLeadershipType.RESIGNED_OTHER
      else PlanLeadershipType.OTHER

/-- Modelled from the spec (section 4.3): classify what the local
state says about leadership of a shard from its theLeader value:
empty string means this server believes itself leader, each sentinel
has its own state, any other value names the other leader. -/
def localLeadership (theLeader : String) : LocalLeadershipType :=
  if theLeader == "" then LocalLeadershipType.SELF
  else if theLeader == resignedLeaderSentinel then LocalLeadershipType.RESIGNED
  else if theLeader == rebootedLeaderSentinel then LocalLeadershipType.REBOOTED
  else LocalLeadershipType.OTHER

/-- Modelled from the spec (section 3): the Plan entry for one
collection: its name, mutable properties (flat key/value fields),
index ids, and the shard map (shard name to ordered server list). -/
structure PlanCollection where
  cname : String
  props : List (String × String)
  indexes : List String
  shards : List (String × List String)
deriving DecidableEq

/-- Modelled from the spec (section 3): the local state of one shard
on this server: collection properties, index ids, the theLeader
marker, and the server list this shard is locally known to have
(used by the leader to compute followersToDrop). -/
structure LocalShard where
  props : List (String × String)
  indexes : List String
  theLeader : String
  servers : List String
deriving DecidableEq

/-- A Plan database: collection id to PlanCollection. -/
abbrev PlanDatabase := List (String × PlanCollection)

/-- A Local database: shard name to LocalShard. -/
abbrev LocalDatabase := List (String × LocalShard)

/-- Action named CreateDatabase, carrying the database name. -/
def createDatabaseAction (db : String) : ActionDescription :=
  { properties := [("name", "CreateDatabase"), ("database", db)]
    priorityValue := NORMAL_PRIORITY
    runEvenIfNotLeader := true
    payload := none }

/-- Action named DropDatabase, carrying the database name. -/
def dropDatabaseAction (db : String) : ActionDescription :=
  { properties := [("name", "DropDatabase"), ("database", db)]
    priorityValue := NORMAL_PRIORITY
    runEvenIfNotLeader := true
    payload := none }

/-- Action named CreateCollection for a shard in Plan but absent
locally, carrying the shard's full collection parameters as payload. -/
def createCollectionAction (db col shard : String) (c : PlanCollection) :
    ActionDescription :=
  { properties := [("name", "CreateCollection"), ("database", db),
                   ("collection", col), ("shard", shard)]
    priorityValue := NORMAL_PRIORITY
    runEvenIfNotLeader := true
    payload := some c.props }

/-- Action named DropCollection for a shard present locally but no
longer planned for this server, carrying database and shard. -/
def dropCollectionAction (db shard : String) : ActionDescription :=
  { properties := [("name", "DropCollection"), ("database", db),
                   ("shard", shard)]
    priorityValue := NORMAL_PRIORITY
    runEvenIfNotLeader := true
    payload := none }

/-- Action named UpdateCollection: the structured payload holds
exactly the changed fields; when followers have to be dropped their
names are carried in the followersToDrop string property. -/
def updateCollectionAction (db col shard : String)
    (changed : List (String × String)) (followersToDrop : List String) :
    ActionDescription :=
  { properties := [("name", "UpdateCollection"), ("database", db),
                   ("collection", col), ("shard", shard)] ++
      (if followersToDrop.isEmpty then []
       else [("followersToDrop", String.intercalate "," followersToDrop)])
    priorityValue := NORMAL_PRIORITY
    runEvenIfNotLeader := false
    payload := some changed }

/-- Action named EnsureIndex for one index present in Plan but absent
locally in one shard. -/
def ensureIndexAction (db col shard index : String) : ActionDescription :=
  { properties := [("name", "EnsureIndex"), ("database", db),
                   ("collection", col), ("shard", shard), ("index", index)]
    priorityValue := NORMAL_PRIORITY
    runEvenIfNotLeader := false
    payload := none }

/-- Action named DropIndex for one index present locally in one shard
but absent from Plan. -/
def dropIndexAction (db col shard index : String) : ActionDescription :=
  { properties := [("name", "DropIndex"), ("database", db),
                   ("collection", col), ("shard", shard), ("index", index)]
    priorityValue := NORMAL_PRIORITY
    runEvenIfNotLeader := false
    payload := none }

/-- Action named TakeoverShardLeadership, carrying database,
collection, shard, the prior local leader value, and the Plan raft
index. -/
def takeoverShardLeadershipAction (db col shard theLeader : String)
    (planIndex : Nat) : ActionDescription :=
  { properties := [("name", "TakeoverShardLeadership"), ("database", db),
                   ("collection", col), ("shard", shard),
                   ("localLeader", theLeader),
                   ("planRaftIndex", toString planIndex)]
    priorityValue := NORMAL_PRIORITY
    runEvenIfNotLeader := false
    payload := none }

/-- Action named ResignShardLeadership, carrying database and shard. -/
def resignShardLeadershipAction (db shard : String) : ActionDescription :=
  { properties := [("name", "ResignShardLeadership"), ("database", db),
                   ("shard", shard)]
    priorityValue := NORMAL_PRIORITY
    runEvenIfNotLeader := true
    payload := none }

/-- Modelled from the spec (section 4.3): the leadership state
machine.  Resolves the pair (Plan leadership, Local leadership) for a
shard present in both and not locked into zero or one leadership
action, per the 4x4 transition table. -/
def leadershipAction (db col shard : String) (planIndex : Nat)
    (servers : List String) (theLeader : String) (serverId : String) :
    Option ActionDescription :=
  match planLeadership servers serverId, localLeadership theLeader with
  | PlanLeadershipType.SELF, LocalLeadershipType.SELF => none
  | PlanLeadershipType.SELF, _ =>
      some (takeoverShardLeadershipAction db col shard theLeader planIndex)
  | PlanLeadershipType.RESIGNED_SELF, LocalLeadershipType.RESIGNED => none
  | PlanLeadershipType.RESIGNED_SELF, _ =>
      some (resignShardLeadershipAction db shard)
  | PlanLeadershipType.OTHER, LocalLeadershipType.SELF =>
      some (resignShardLeadershipAction db shard)
  | PlanLeadershipType.OTHER, LocalLeadershipType.REBOOTED =>
      some (resignShardLeadershipAction db shard)
  | PlanLeadershipType.OTHER, _ => none
  | PlanLeadershipType.RESIGNED_OTHER, LocalLeadershipType.SELF =>
      some (resignShardLeadershipAction db shard)
  | PlanLeadershipType.RESIGNED_OTHER, LocalLeadershipType.REBOOTED =>
      some (resignShardLeadershipAction db shard)
  | PlanLeadershipType.RESIGNED_OTHER, _ => none

/-- Modelled from the spec: id of the implicit primary index, which is
never dropped. -/
def primaryIndexId : String := "primary"

/-- Modelled from the spec (section 4.2 step 3): the fields of an
UpdateCollection payload: exactly the Plan properties whose local
value differs (a missing local value counts as different). -/
def changedProps (planProps localProps : List (String × String)) :
    List (String × String) :=
  planProps.filter (fun kv => !(localProps.lookup kv.1 == some kv.2))

/-- Whether the given server is assigned to a shard (as leader or
follower), ignoring resignation markers. -/
def assignedTo (servers : List String) (serverId : String) : Bool :=
  (servers.map stripResignMarker).contains serverId

/-- Modelled from the spec (section 4.2 step 3): the followers this
shard's leader finds removed from the Plan server list: computed only
when Plan and Local both say this server leads the shard, as the
locally known servers that no longer appear in the Plan server list. -/
def droppedFollowers (servers : List String) (serverId : String)
    (lsh : LocalShard) : List String :=
  if planLeadership servers serverId == PlanLeadershipType.SELF &&
     localLeadership lsh.theLeader == LocalLeadershipType.SELF then
    lsh.servers.filter
      (fun x => !((servers.map stripResignMarker).contains x))
  else []

/-- Modelled from the spec (section 4.2 step 3): index reconciliation
for one shard: one EnsureIndex per index in Plan but absent locally,
one DropIndex per index present locally, absent from Plan and not the
implicit primary index. -/
def indexActions (db col shard : String) (c : PlanCollection)
    (lsh : LocalShard) : List ActionDescription :=
  (c.indexes.filter (fun i => !(lsh.indexes.contains i))).map
    (fun i => ensureIndexAction db col shard i) ++
  (lsh.indexes.filter
      (fun i => !(c.indexes.contains i) && !(i == primaryIndexId))).map
    (fun i => dropIndexAction db col shard i)

/-- Modelled from the spec (section 4.2 steps 3 and 4): actions for a
shard present in both Plan and Local and not locked.  Leadership takes
precedence; otherwise property drift or dropped followers yield a
single UpdateCollection; otherwise index differences yield one
EnsureIndex/DropIndex per differing index. -/
def shardDiff (db col shard serverId : String) (planIndex : Nat)
    (c : PlanCollection) (servers : List String) (lsh : LocalShard) :
    List ActionDescription :=
  match leadershipAction db col shard planIndex servers lsh.theLeader serverId with
  | some a => [a]
  | none =>
    if (changedProps c.props lsh.props).isEmpty &&
       (droppedFollowers servers serverId lsh).isEmpty then
      indexActions db col shard c lsh
    else
      [updateCollectionAction db col shard (changedProps c.props lsh.props)
        (droppedFollowers servers serverId lsh)]

/-- Whether some collection of the Plan database assigns this shard to
this server (as leader or follower). -/
def planShardAssigned (pdb : PlanDatabase) (shard serverId : String) : Bool :=
  pdb.any (fun c => c.2.shards.any
    (fun sv => sv.1 == shard && assignedTo sv.2 serverId))

/-- Modelled from the spec (section 4.2): per-database diff.  A
database present on only one side yields its existence action and
collection-level diffing is skipped.  For a database present in both,
Plan shards assigned to this server are compared against local shards
(CreateCollection when absent locally, shardDiff when present), and
local shards no longer planned for this server yield DropCollection.
A shard with an in-flight entry in the shard lock map is suppressed
entirely. -/
def diffDatabase (serverId : String) (planIndex : Nat)
    (shardLocks : List String) (db : String) :
    Option PlanDatabase → Option LocalDatabase → List ActionDescription
  | none, none => []
  | some _, none => [createDatabaseAction db]
  | none, some _ => [dropDatabaseAction db]
  | some pdb, some ldb =>
      (pdb.flatMap (fun c =>
        c.2.shards.flatMap (fun sv =>
          if shardLocks.contains sv.1 then []
          else if !(assignedTo sv.2 serverId) then []
          else
            match ldb.lookup sv.1 with
            | none => [createCollectionAction db c.1 sv.1 c.2]
            | some lsh =>
                shardDiff db c.1 sv.1 serverId planIndex c.2 sv.2 lsh))) ++
      ldb.flatMap (fun sl =>
        if shardLocks.contains sl.1 then []
        else if planShardAssigned pdb sl.1 serverId then []
        else [dropCollectionAction db sl.1])

/-- Deduplicate a list of database names (the dirty set is a hash set
in the source; the model receives it as a list and considers each name
once). -/
def dedupKeys : List String → List String
  | [] => []
  | x :: xs => if xs.contains x then dedupKeys xs else x :: dedupKeys xs

/-- Modelled from the spec (section 4.2): the diff engine.  For each
dirty database the Plan subtree and the Local subtree for this server
are compared; the shard lock map (modelled by its key set, the shard
ids with an in-flight action) suppresses per-shard evaluation.  The
result is the ordered list of emitted ActionDescriptions. -/
def diffPlanLocal (plan : List (String × PlanDatabase)) (planIndex : Nat)
    (dirty : List String) (localState : List (String × LocalDatabase))
    (serverId : String) (shardLocks : List String) :
    List ActionDescription :=
  (dedupKeys dirty).flatMap (fun db =>
    diffDatabase serverId planIndex shardLocks db
      (plan.lookup db) (localState.lookup db))

/-
Reference local states that mirror a Plan exactly (no drift), used to
state the equilibrium property, and well-formedness of a Plan.
-/

/-- The theLeader value a local shard holds when it agrees exactly
with what the Plan says about leadership of the shard. -/
def syncTheLeader (servers : List String) (serverId : String) : String :=
  match planLeadership servers serverId with
  | PlanLeadershipType.SELF => ""
  | PlanLeadershipType.RESIGNED_SELF => resignedLeaderSentinel
  | PlanLeadershipType.OTHER =>
      match servers with
      | [] => ""
      | leader :: _ => stripResignMarker leader
  | PlanLeadershipType.RESIGNED_OTHER => resignedLeaderSentinel

/-- The local state of one shard when it matches the Plan exactly:
same properties, same indexes, leadership and server list agreeing
with the Plan. -/
def localShardOfPlan (serverId : String) (c : PlanCollection)
    (servers : List String) : LocalShard :=
  { props := c.props, indexes := c.indexes,
    theLeader := syncTheLeader servers serverId,
    servers := servers.map stripResignMarker }

/-- The local shard entries one collection of the Plan induces on a
server: one entry per shard assigned to that server. -/
def shardEntries (serverId : String) (c : PlanCollection) :
    List (String × LocalShard) :=
  c.shards.filterMap (fun sv =>
    if assignedTo sv.2 serverId then
      some (sv.1, localShardOfPlan serverId c sv.2)
    else none)

/-- The local database a server holds when it matches a Plan database
exactly. -/
def localOfPlanDb (serverId : String) (pdb : PlanDatabase) : LocalDatabase :=
  pdb.flatMap (fun c => shardEntries serverId c.2)

/-- The full local state of a server that matches the Plan exactly
(no drift anywhere). -/
def localOfPlan (serverId : String) (plan : List (String × PlanDatabase)) :
    List (String × LocalDatabase) :=
  plan.map (fun d => (d.1, localOfPlanDb serverId d.2))

/-- A usable server name: nonempty after stripping the resignation
marker and distinct from both theLeader sentinels. -/
def goodServerName (s : String) : Prop :=
  stripResignMarker s ≠ "" ∧ stripResignMarker s ≠ resignedLeaderSentinel ∧
    stripResignMarker s ≠ rebootedLeaderSentinel

instance (s : String) : Decidable (goodServerName s) := by
  unfold goodServerName
  infer_instance

/-- Well-formedness of a Plan database: shard names are unique across
the database (they are keys of a map in the source), collection
property keys are unique, and all server names are usable. -/
def wfPlanDatabase (pdb : PlanDatabase) : Prop :=
  (pdb.flatMap (fun c => c.2.shards.map Prod.fst)).Nodup ∧
  ∀ c ∈ pdb, (c.2.props.map Prod.fst).Nodup ∧
    ∀ sv ∈ c.2.shards, ∀ x ∈ sv.2, goodServerName x

/-- Well-formedness of a Plan: every database is well-formed. -/
def wfPlan (plan : List (String × PlanDatabase)) : Prop :=
  ∀ d ∈ plan, wfPlanDatabase d.2

instance (pdb : PlanDatabase) : Decidable (wfPlanDatabase pdb) := by
  unfold wfPlanDatabase
  infer_instance

instance (plan : List (String × PlanDatabase)) : Decidable (wfPlan plan) := by
  unfold wfPlan
  infer_instance

/-
Concrete scenario fixtures, mirroring the configurations built by the
test suite in src/tests/Maintenance/MaintenanceTest.cpp.
-/

/-- The server whose local state is diffed in the leadership
scenarios. -/
def selfServer : String := "PRMR-srv-a"

/-- The follower server of the leadership scenarios. -/
def followerServer : String := "PRMR-srv-b"

/-- The extra server id the tests use for a foreign leader
(unusedServer in MaintenanceTest.cpp). -/
def unusedServerId : String := "PRMR-deadbeef-1337-7331-abcd-123456789abc"

/-- Baseline mutable collection properties shared by the scenario
fixtures. -/
def basePropsStd : List (String × String) := [("waitForSync", "false")]

/-- Plan server lists for the four Plan leadership states, mirroring
setLeadershipPlan in MaintenanceTest.cpp: SELF keeps this server in
front, RESIGNED_SELF marks it resigned, OTHER and RESIGNED_OTHER put
a foreign server in front (marked resigned in the latter case). -/
def c1PlanServers : PlanLeadershipType → List String
  | PlanLeadershipType.SELF => [selfServer, followerServer]
  | PlanLeadershipType.RESIGNED_SELF => ["_" ++ selfServer, followerServer]
  | PlanLeadershipType.OTHER => [unusedServerId, selfServer, followerServer]
  | PlanLeadershipType.RESIGNED_OTHER =>
      ["_" ++ unusedServerId, selfServer, followerServer]

/-- Local theLeader values for the four Local leadership states,
mirroring setLeadershipLocal in MaintenanceTest.cpp: empty string,
the foreign server, and the two sentinels. -/
def c1TheLeader : LocalLeadershipType → String
  | LocalLeadershipType.SELF => ""
  | LocalLeadershipType.OTHER => unusedServerId
  | LocalLeadershipType.RESIGNED => resignedLeaderSentinel
  | LocalLeadershipType.REBOOTED => rebootedLeaderSentinel

/-- The one-shard Plan collection of the leadership scenarios. -/
def c1Collection (pt : PlanLeadershipType) : PlanCollection :=
  { cname := "shop", props := basePropsStd, indexes := ["primary"],
    shards := [("s123", c1PlanServers pt)] }

/-- Plan of the leadership scenarios: database foo, collection id
2010088 (as in the test fixtures), one shard. -/
def c1Plan (pt : PlanLeadershipType) : List (String × PlanDatabase) :=
  [("foo", [("2010088", c1Collection pt)])]

/-- Local state of the leadership scenarios: the shard is present with
matching properties and indexes; only theLeader varies. -/
def c1Local (pt : PlanLeadershipType) (lt : LocalLeadershipType) :
    List (String × LocalDatabase) :=
  [("foo", [("s123",
    { props := basePropsStd, indexes := ["primary"],
      theLeader := c1TheLeader lt,
      servers := (c1PlanServers pt).map stripResignMarker })])]

/-- The leadership transition table of spec section 4.3, written out
as the expected action list for each of the sixteen combinations,
with the localLeader payload equal to the prior local theLeader
value. -/
def c1ExpectedActions (pt : PlanLeadershipType) (lt : LocalLeadershipType) :
    List ActionDescription :=
  match pt, lt with
  | PlanLeadershipType.SELF, LocalLeadershipType.SELF => []
  | PlanLeadershipType.SELF, lt =>
      [takeoverShardLeadershipAction "foo" "2010088" "s123" (c1TheLeader lt) 7]
  | PlanLeadershipType.RESIGNED_SELF, LocalLeadershipType.RESIGNED => []
  | PlanLeadershipType.RESIGNED_SELF, _ =>
      [resignShardLeadershipAction "foo" "s123"]
  | PlanLeadershipType.OTHER, LocalLeadershipType.SELF =>
      [resignShardLeadershipAction "foo" "s123"]
  | PlanLeadershipType.OTHER, LocalLeadershipType.REBOOTED =>
      [resignShardLeadershipAction "foo" "s123"]
  | PlanLeadershipType.OTHER, _ => []
  | PlanLeadershipType.RESIGNED_OTHER, LocalLeadershipType.SELF =>
      [resignShardLeadershipAction "foo" "s123"]
  | PlanLeadershipType.RESIGNED_OTHER, LocalLeadershipType.REBOOTED =>
      [resignShardLeadershipAction "foo" "s123"]
  | PlanLeadershipType.RESIGNED_OTHER, _ => []

/-- Follower-removal scenario: collection bar, one shard s77 whose
Plan server list has been reduced to the leader alone (the follower
SRV-B was removed). -/
def c4Collection : PlanCollection :=
  { cname := "bar", props := basePropsStd, indexes := ["primary"],
    shards := [("s77", ["SRV-A"])] }

/-- Follower-removal scenario Plan. -/
def c4Plan : List (String × PlanDatabase) :=
  [("_system", [("cbar", c4Collection)])]

/-- Local shard of the follower-removal scenario: both servers still
list the pre-removal server pair. -/
def c4LocalShard (theLeader : String) : LocalShard :=
  { props := basePropsStd, indexes := ["primary"], theLeader := theLeader,
    servers := ["SRV-A", "SRV-B"] }

/-- Local state of the remaining leader SRV-A. -/
def c4LocalLeader : List (String × LocalDatabase) :=
  [("_system", [("s77", c4LocalShard "")])]

/-- Local state of the removed follower SRV-B. -/
def c4LocalFollower : List (String × LocalDatabase) :=
  [("_system", [("s77", c4LocalShard "SRV-A")])]

/-- Local state of an uninvolved third server. -/
def c4LocalOtherServer : List (String × LocalDatabase) := [("_system", [])]

/-- Minimal-diff scenario Plan: one collection, one shard led by
SRV-A, parametrised by the Plan-side mutable properties. -/
def c5Plan (pp : List (String × String)) : List (String × PlanDatabase) :=
  [("db", [("c1",
    { cname := "x", props := pp, indexes := ["iP"],
      shards := [("s1", ["SRV-A"])] })])]

/-- Minimal-diff scenario Local state, parametrised by the local
properties of the shard. -/
def c5Local (lp : List (String × String)) : List (String × LocalDatabase) :=
  [("db", [("s1",
    { props := lp, indexes := ["iP"], theLeader := "",
      servers := ["SRV-A"] })])]

/-- Dirty-gating scenario: a local shard in sync with the Plan. -/
def c6SyncShard : LocalShard :=
  { props := basePropsStd, indexes := ["primary"],
    theLeader := "", servers := ["SRV-A"] }

/-- Dirty-gating scenario Plan collection. -/
def c6Collection : PlanCollection :=
  { cname := "bar", props := basePropsStd, indexes := ["primary"],
    shards := [("s77", ["SRV-A"])] }

/-- Dirty-gating scenario Plan: only the _system database exists. -/
def c6Plan : List (String × PlanDatabase) :=
  [("_system", [("cbar", c6Collection)])]

/-- Dirty-gating scenario Local state: _system is in sync, and an
extra database db3 exists locally but not in Plan (the only drift). -/
def c6Local : List (String × LocalDatabase) :=
  [("_system", [("s77", c6SyncShard)]), ("db3", [("s99", c6SyncShard)])]

/-- End-to-end creation scenario: database db3, collection x with one
shard and replication factor three across the three known servers. -/
def c8Collection : PlanCollection :=
  { cname := "x", props := basePropsStd, indexes := ["primary"],
    shards := [("s9000002", ["SRV-A", "SRV-B", "SRV-C"])] }

/-- End-to-end creation scenario Plan. -/
def c8Plan : List (String × PlanDatabase) :=
  [("db3", [("9000001", c8Collection)])]

/-- End-to-end creation scenario Local state: each server starts with
an empty db3. -/
def c8Local : List (String × LocalDatabase) := [("db3", [])]

/-- Index-drift scenario collection: three shards spread over three
servers; index i9 is present in Plan besides the primary-like iP. -/
def c10Collection : PlanCollection :=
  { cname := "q", props := basePropsStd, indexes := ["iP", "i9"],
    shards := [("s1", ["SRV-A", "SRV-B"]), ("s2", ["SRV-B", "SRV-C"]),
               ("s3", ["SRV-C", "SRV-A"])] }

/-- Index-drift scenario collection with i9 removed from Plan. -/
def c10CollectionNoIdx : PlanCollection :=
  { c10Collection with indexes := ["iP"] }

/-- Index-drift scenario Plan (index added). -/
def c10Plan : List (String × PlanDatabase) :=
  [("dbx", [("c9", c10Collection)])]

/-- Index-drift scenario Plan (index removed). -/
def c10PlanNoIdx : List (String × PlanDatabase) :=
  [("dbx", [("c9", c10CollectionNoIdx)])]

/-- Local shard of the index-drift scenario with the given leadership
marker, server list and index list. -/
def c10Shard (theLeader : String) (servers : List String)
    (idx : List String) : LocalShard :=
  { props := basePropsStd, indexes := idx, theLeader := theLeader,
    servers := servers }

/-- Local state of SRV-A: it holds its two assigned shards s1 and
s3. -/
def c10LocalA (idx : List String) : List (String × LocalDatabase) :=
  [("dbx", [("s1", c10Shard "" ["SRV-A", "SRV-B"] idx),
            ("s3", c10Shard "SRV-C" ["SRV-C", "SRV-A"] idx)])]

/-- Local state of SRV-B: it holds s1 but is missing its assigned
shard s2. -/
def c10LocalB (idx : List String) : List (String × LocalDatabase) :=
  [("dbx", [("s1", c10Shard "SRV-A" ["SRV-A", "SRV-B"] idx)])]

/-- Witness Plan for the equilibrium theorem. -/
def c2WitnessPlan : List (String × PlanDatabase) :=
  [("db1", [("c1",
    { cname := "x", props := basePropsStd,
      indexes := ["primary"],
      shards := [("s1", ["SRV-A", "SRV-B"])] })])]

/-- Witness collection for the lock-suppression theorem: two shards
assigned to SRV-A, of which s1 will be locked. -/
def c3WitnessCollection : PlanCollection :=
  { cname := "x", props := basePropsStd, indexes := ["primary"],
    shards := [("s1", ["SRV-A"]), ("s2", ["SRV-A"])] }

/-- Witness Plan for the lock-suppression theorem. -/
def c3WitnessPlan : List (String × PlanDatabase) :=
  [("db3", [("col1", c3WitnessCollection)])]

/-- Witness Local state for the lock-suppression theorem: db3 exists
but holds no shards. -/
def c3WitnessLocal : List (String × LocalDatabase) := [("db3", [])]

/-
Supporting lemmas about association-list lookups, deduplication and
the synced local state.
-/

lemma lookup_map_value {β γ : Type} (f : β → γ) (l : List (String × β))
    (k : String) :
    List.lookup k (l.map (fun p => (p.1, f p.2))) = (List.lookup k l).map f := by
  induction l with
  | nil => rfl
  | cons p t ih =>
    obtain ⟨k0, b0⟩ := p
    cases hp : (k == k0) <;>
      simp [List.lookup_cons, hp, ih]

lemma mem_of_lookup_eq_some {β : Type} {l : List (String × β)} {k : String}
    {b : β} (h : List.lookup k l = some b) : (k, b) ∈ l := by
  induction l with
  | nil => simp at h
  | cons p t ih =>
    obtain ⟨k0, b0⟩ := p
    rw [List.lookup_cons] at h
    cases hp : (k == k0) with
    | false =>
      rw [hp] at h
      exact List.mem_cons_of_mem _ (ih h)
    | true =>
      rw [hp] at h
      simp only [Option.some.injEq] at h
      have hk : k = k0 := eq_of_beq hp
      subst hk
      subst h
      exact List.mem_cons_self _ _

lemma lookup_eq_some_of_nodup {β : Type} {l : List (String × β)}
    (hnd : (l.map Prod.fst).Nodup) {k : String} {b : β} (hm : (k, b) ∈ l) :
    List.lookup k l = some b := by
  induction l with
  | nil => cases hm
  | cons p t ih =>
    obtain ⟨k0, b0⟩ := p
    rw [List.map_cons, List.nodup_cons] at hnd
    rcases List.mem_cons.mp hm with heq | hmt
    · cases heq
      exact List.lookup_cons_self
    · have hk : k ∈ t.map Prod.fst := List.mem_map.mpr ⟨(k, b), hmt, rfl⟩
      have hne : ¬ (k == k0) = true := by
        intro hb
        exact hnd.1 (eq_of_beq hb ▸ hk)
      rw [List.lookup_cons, Bool.eq_false_iff.mpr hne]
      exact ih hnd.2 hmt

lemma lookup_eq_none_of_not_mem_keys {β : Type} {l : List (String × β)}
    {k : String} (h : k ∉ l.map Prod.fst) : List.lookup k l = none := by
  rw [List.lookup_eq_none_iff]
  intro p hp
  have : p.1 ∈ l.map Prod.fst := List.mem_map.mpr ⟨p, hp, rfl⟩
  exact bne_iff_ne.mpr (fun he => h (he ▸ this))

lemma filter_not_contains (l : List String) :
    (l.filter (fun x => !(l.contains x))) = [] := by
  rw [List.filter_eq_nil_iff]
  intro a ha
  simp [List.contains, List.elem_iff, ha]

lemma filter_not_contains_and (l : List String) (p : String → Bool) :
    (l.filter (fun x => !(l.contains x) && p x)) = [] := by
  rw [List.filter_eq_nil_iff]
  intro a ha
  simp [List.contains, List.elem_iff, ha]

lemma mem_dedupKeys {a : String} {l : List String} :
    a ∈ dedupKeys l ↔ a ∈ l := by
  induction l with
  | nil => simp [dedupKeys]
  | cons x xs ih =>
    rw [dedupKeys]
    by_cases hx : xs.contains x
    · rw [if_pos hx]
      have hxm : x ∈ xs := by simpa [List.contains, List.elem_iff] using hx
      rw [ih]
      constructor
      · exact fun h => List.mem_cons_of_mem _ h
      · intro h
        rcases List.mem_cons.mp h with rfl | h2
        · exact hxm
        · exact h2
    · rw [if_neg hx]
      simp [ih]

lemma changedProps_self {l : List (String × String)}
    (h : (l.map Prod.fst).Nodup) : changedProps l l = [] := by
  rw [changedProps, List.filter_eq_nil_iff]
  intro kv hkv
  have hl : List.lookup kv.1 l = some kv.2 := lookup_eq_some_of_nodup h hkv
  simp [hl]

lemma leadershipAction_synced {db col s sid : String} {pIdx : Nat}
    {servers : List String} (hgood : ∀ x ∈ servers, goodServerName x)
    (hne : servers ≠ []) :
    leadershipAction db col s pIdx servers (syncTheLeader servers sid) sid
      = none := by
  cases hp : planLeadership servers sid with
  | SELF =>
    simp [leadershipAction, syncTheLeader, hp, localLeadership]
  | RESIGNED_SELF =>
    simp [leadershipAction, syncTheLeader, hp, localLeadership,
      resignedLeaderSentinel, rebootedLeaderSentinel]
  | OTHER =>
    cases servers with
    | nil => exact absurd rfl hne
    | cons leader t =>
      obtain ⟨h1, h2, h3⟩ := hgood leader (List.mem_cons_self leader t)
      simp [leadershipAction, syncTheLeader, hp, localLeadership, h1, h2, h3]
  | RESIGNED_OTHER =>
    simp [leadershipAction, syncTheLeader, hp, localLeadership,
      resignedLeaderSentinel, rebootedLeaderSentinel]

lemma shardDiff_synced {db col s sid : String} {pIdx : Nat}
    {c : PlanCollection} {servers : List String}
    (hgood : ∀ x ∈ servers, goodServerName x)
    (hprops : (c.props.map Prod.fst).Nodup)
    (ha : assignedTo servers sid = true) :
    shardDiff db col s sid pIdx c servers (localShardOfPlan sid c servers)
      = [] := by
  have hne : servers ≠ [] := by
    intro h
    rw [h] at ha
    simp [assignedTo] at ha
  have hla := @leadershipAction_synced db col s sid pIdx servers hgood hne
  simp [shardDiff, localShardOfPlan, hla, changedProps_self hprops,
    droppedFollowers, indexActions, filter_not_contains,
    filter_not_contains_and]
  intro a ha hna
  exact absurd ha hna

lemma lookup_filterMap_assigned {sid : String} {c : PlanCollection}
    {sv : String × List String} {shards : List (String × List String)}
    (hnd : (shards.map Prod.fst).Nodup) (hsv : sv ∈ shards)
    (ha : assignedTo sv.2 sid = true) :
    List.lookup sv.1 (shards.filterMap (fun q =>
      if assignedTo q.2 sid then some (q.1, localShardOfPlan sid c q.2)
      else none)) = some (localShardOfPlan sid c sv.2) := by
  induction shards with
  | nil => cases hsv
  | cons p t ih =>
    rw [List.map_cons, List.nodup_cons] at hnd
    rw [List.filterMap_cons]
    rcases List.mem_cons.mp hsv with rfl | hsvt
    · rw [if_pos ha]
      exact List.lookup_cons_self
    · have hk : sv.1 ∈ t.map Prod.fst := List.mem_map.mpr ⟨sv, hsvt, rfl⟩
      have hne : ¬ (sv.1 == p.1) = true := fun hb => hnd.1 (eq_of_beq hb ▸ hk)
      have hfalse : (sv.1 == p.1) = false := Bool.eq_false_iff.mpr hne
      by_cases hap : assignedTo p.2 sid = true
      · rw [if_pos hap]
        simp only [List.lookup_cons, hfalse]
        exact ih hnd.2 hsvt
      · rw [if_neg hap]
        exact ih hnd.2 hsvt

lemma lookup_shardEntries_of_mem {sid : String} {c : PlanCollection}
    {sv : String × List String}
    (hnd : (c.shards.map Prod.fst).Nodup) (hsv : sv ∈ c.shards)
    (ha : assignedTo sv.2 sid = true) :
    List.lookup sv.1 (shardEntries sid c) =
      some (localShardOfPlan sid c sv.2) := by
  rw [shardEntries]
  exact lookup_filterMap_assigned hnd hsv ha

lemma lookup_shardEntries_none {sid k : String} {c : PlanCollection}
    (h : k ∉ c.shards.map Prod.fst) :
    List.lookup k (shardEntries sid c) = none := by
  apply lookup_eq_none_of_not_mem_keys
  intro hk
  obtain ⟨p, hp, hpk⟩ := List.mem_map.mp hk
  obtain ⟨q, hq, heq⟩ := List.mem_filterMap.mp hp
  by_cases haq : assignedTo q.2 sid = true
  · rw [if_pos haq] at heq
    obtain rfl := (Option.some.injEq ..).mp heq
    exact h (hpk ▸ List.mem_map.mpr ⟨q, hq, rfl⟩)
  · rw [if_neg haq] at heq
    cases heq

lemma lookup_localOfPlanDb {sid : String} {pdb : PlanDatabase}
    {c : String × PlanCollection} {sv : String × List String}
    (hnd : (pdb.flatMap (fun e => e.2.shards.map Prod.fst)).Nodup)
    (hc : c ∈ pdb) (hsv : sv ∈ c.2.shards)
    (ha : assignedTo sv.2 sid = true) :
    List.lookup sv.1 (localOfPlanDb sid pdb) =
      some (localShardOfPlan sid c.2 sv.2) := by
  induction pdb with
  | nil => cases hc
  | cons c0 rest ih =>
    rw [List.flatMap_cons, List.nodup_append] at hnd
    obtain ⟨h0, hrest, hdisj⟩ := hnd
    have hunfold : localOfPlanDb sid (c0 :: rest) =
        shardEntries sid c0.2 ++ localOfPlanDb sid rest := by
      rw [localOfPlanDb, List.flatMap_cons]
      rfl
    rw [hunfold, List.lookup_append]
    rcases List.mem_cons.mp hc with rfl | hcr
    · rw [lookup_shardEntries_of_mem h0 hsv ha]
      rfl
    · have hk : sv.1 ∈ rest.flatMap (fun e => e.2.shards.map Prod.fst) :=
        List.mem_flatMap.mpr ⟨c, hcr, List.mem_map.mpr ⟨sv, hsv, rfl⟩⟩
      have hnk : sv.1 ∉ c0.2.shards.map Prod.fst := fun hmem => hdisj hmem hk
      rw [lookup_shardEntries_none hnk]
      rw [Option.none_or]
      exact ih hrest hcr

lemma mem_localOfPlanDb {sid : String} {pdb : PlanDatabase}
    {e : String × LocalShard} (h : e ∈ localOfPlanDb sid pdb) :
    ∃ c ∈ pdb, ∃ sv ∈ c.2.shards, sv.1 = e.1 ∧ assignedTo sv.2 sid = true := by
  obtain ⟨c, hc, he⟩ := List.mem_flatMap.mp h
  obtain ⟨sv, hsv, heq⟩ := List.mem_filterMap.mp he
  by_cases haq : assignedTo sv.2 sid = true
  · rw [if_pos haq] at heq
    obtain rfl := (Option.some.injEq ..).mp heq
    exact ⟨c, hc, sv, hsv, rfl, haq⟩
  · rw [if_neg haq] at heq
    cases heq

lemma diffDatabase_synced {sid db : String} {pIdx : Nat}
    {locks : List String} {pdb : PlanDatabase} (hwf : wfPlanDatabase pdb) :
    diffDatabase sid pIdx locks db (some pdb)
      (some (localOfPlanDb sid pdb)) = [] := by
  obtain ⟨hnd, hcols⟩ := hwf
  rw [diffDatabase]
  rw [List.append_eq_nil]
  constructor
  · rw [List.flatMap_eq_nil_iff]
    intro c hc
    rw [List.flatMap_eq_nil_iff]
    intro sv hsv
    by_cases hlock : locks.contains sv.1 = true
    · rw [if_pos hlock]
    · rw [if_neg hlock]
      by_cases hass : assignedTo sv.2 sid = true
      · rw [if_neg (by simp [hass])]
        rw [lookup_localOfPlanDb hnd hc hsv hass]
        exact shardDiff_synced ((hcols c hc).2 sv hsv) (hcols c hc).1 hass
      · rw [if_pos (by simp [Bool.eq_false_iff.mpr hass])]
  · rw [List.flatMap_eq_nil_iff]
    intro e he
    obtain ⟨c, hc, sv, hsv, hk, ha⟩ := mem_localOfPlanDb he
    by_cases hlock : locks.contains e.1 = true
    · rw [if_pos hlock]
    · rw [if_neg hlock]
      have hassigned : planShardAssigned pdb e.1 sid = true := by
        rw [planShardAssigned, List.any_eq_true]
        refine ⟨c, hc, ?_⟩
        rw [List.any_eq_true]
        refine ⟨sv, hsv, ?_⟩
        rw [Bool.and_eq_true]
        exact ⟨by simp [hk], ha⟩
      rw [if_pos hassigned]

lemma leadershipAction_props {db col sh sid tl : String} {pIdx : Nat}
    {servers : List String} {a : ActionDescription}
    (h : leadershipAction db col sh pIdx servers tl sid = some a) :
    a.properties.lookup "shard" = some sh ∧
    a.properties.lookup "database" = some db := by
  unfold leadershipAction at h
  split at h <;>
    first
    | (obtain rfl := (Option.some.injEq ..).mp h; exact ⟨rfl, rfl⟩)
    | cases h

lemma mem_indexActions_props {db col sh : String} {c : PlanCollection}
    {lsh : LocalShard} {a : ActionDescription}
    (h : a ∈ indexActions db col sh c lsh) :
    a.properties.lookup "shard" = some sh ∧
    a.properties.lookup "database" = some db := by
  rw [indexActions] at h
  rcases List.mem_append.mp h with h1 | h1 <;>
    (obtain ⟨i, hi, rfl⟩ := List.mem_map.mp h1; exact ⟨rfl, rfl⟩)

lemma mem_shardDiff_props {db col sh sid : String} {pIdx : Nat}
    {c : PlanCollection} {servers : List String} {lsh : LocalShard}
    {a : ActionDescription}
    (h : a ∈ shardDiff db col sh sid pIdx c servers lsh) :
    a.properties.lookup "shard" = some sh ∧
    a.properties.lookup "database" = some db := by
  rw [shardDiff] at h
  cases hla : leadershipAction db col sh pIdx servers lsh.theLeader sid with
  | some b =>
    rw [hla] at h
    obtain rfl := List.mem_singleton.mp h
    exact leadershipAction_props hla
  | none =>
    rw [hla] at h
    by_cases hcond : ((changedProps c.props lsh.props).isEmpty &&
        (droppedFollowers servers sid lsh).isEmpty) = true
    · rw [if_pos hcond] at h
      exact mem_indexActions_props h
    · rw [if_neg hcond] at h
      obtain rfl := List.mem_singleton.mp h
      exact ⟨rfl, rfl⟩

lemma mem_diffDatabase_cases {sid db : String} {pIdx : Nat}
    {locks : List String} {p : Option PlanDatabase} {l : Option LocalDatabase}
    {a : ActionDescription} (h : a ∈ diffDatabase sid pIdx locks db p l) :
    a.properties.lookup "database" = some db ∧
    (∀ s : String, a.properties.lookup "shard" = some s →
      locks.contains s = false) := by
  match p, l with
  | none, none => cases h
  | some pdb, none =>
    rw [diffDatabase] at h
    obtain rfl := List.mem_singleton.mp h
    exact ⟨rfl, fun s hs => by cases hs⟩
  | none, some ldb =>
    rw [diffDatabase] at h
    obtain rfl := List.mem_singleton.mp h
    exact ⟨rfl, fun s hs => by cases hs⟩
  | some pdb, some ldb =>
    rw [diffDatabase] at h
    rcases List.mem_append.mp h with h1 | h1
    · obtain ⟨c, hc, h2⟩ := List.mem_flatMap.mp h1
      obtain ⟨sv, hsv, h3⟩ := List.mem_flatMap.mp h2
      by_cases hlock : locks.contains sv.1 = true
      · rw [if_pos hlock] at h3
        cases h3
      · rw [if_neg hlock] at h3
        by_cases hass : (!(assignedTo sv.2 sid)) = true
        · rw [if_pos hass] at h3
          cases h3
        · rw [if_neg hass] at h3
          have hprops : a.properties.lookup "shard" = some sv.1 ∧
              a.properties.lookup "database" = some db := by
            cases hld : List.lookup sv.1 ldb with
            | none =>
              rw [hld] at h3
              obtain rfl := List.mem_singleton.mp h3
              exact ⟨rfl, rfl⟩
            | some lsh =>
              rw [hld] at h3
              exact mem_shardDiff_props h3
          refine ⟨hprops.2, fun s hs => ?_⟩
          rw [hprops.1] at hs
          obtain rfl := (Option.some.injEq ..).mp hs
          exact Bool.eq_false_iff.mpr hlock
    · obtain ⟨e, he, h2⟩ := List.mem_flatMap.mp h1
      by_cases hlock : locks.contains e.1 = true
      · rw [if_pos hlock] at h2
        cases h2
      · rw [if_neg hlock] at h2
        by_cases hassigned : planShardAssigned pdb e.1 sid = true
        · rw [if_pos hassigned] at h2
          cases h2
        · rw [if_neg hassigned] at h2
          obtain rfl := List.mem_singleton.mp h2
          refine ⟨rfl, fun s hs => ?_⟩
          obtain rfl := (Option.some.injEq ..).mp hs
          exact Bool.eq_false_iff.mpr hlock

/-
Claim theorems.
-/

/-- C1: for a shard present in both Plan and Local and not locked, the
leadership action diffPlanLocal emits is exactly the one of the 4x4
table over Plan leadership (SELF, RESIGNED_SELF, OTHER,
RESIGNED_OTHER) and Local leadership (SELF, OTHER, RESIGNED,
REBOOTED): Plan SELF emits nothing for Local SELF and
TakeoverShardLeadership otherwise; Plan RESIGNED_SELF emits nothing
for Local RESIGNED and ResignShardLeadership otherwise; Plan OTHER and
RESIGNED_OTHER emit ResignShardLeadership for Local SELF and REBOOTED
and nothing for Local OTHER and RESIGNED.  Every takeover carries
database, collection, shard, planRaftIndex and a localLeader equal to
the prior local theLeader value; every resignation carries database
and shard (see c1ExpectedActions and the action constructors). -/
theorem leadership_table_matches_spec (pt : PlanLeadershipType)
    (lt : LocalLeadershipType) :
    diffPlanLocal (c1Plan pt) 7 ["foo"] (c1Local pt lt) selfServer [] =
      c1ExpectedActions pt lt := by
  cases pt <;> cases lt <;> decide

/-- C2: when the Local state matches the Plan exactly (no drift,
expressed by localOfPlan), diffPlanLocal emits zero actions for every
dirty set, every shard lock map and every Plan raft index, and
repeated calls with the same inputs keep the accumulated action list
empty. -/
theorem equilibrium_zero_actions (plan : List (String × PlanDatabase))
    (pIdx : Nat) (dirty : List String) (sid : String) (locks : List String)
    (h : wfPlan plan) :
    diffPlanLocal plan pIdx dirty (localOfPlan sid plan) sid locks = [] ∧
    ∀ n : Nat, (List.replicate n (diffPlanLocal plan pIdx dirty
      (localOfPlan sid plan) sid locks)).flatten = [] := by
  have hmain : diffPlanLocal plan pIdx dirty (localOfPlan sid plan) sid locks
      = [] := by
    rw [diffPlanLocal, List.flatMap_eq_nil_iff]
    intro db hdb
    rw [localOfPlan, lookup_map_value]
    cases hp : List.lookup db plan with
    | none => rfl
    | some pdb =>
      have hwf := h (db, pdb) (mem_of_lookup_eq_some hp)
      exact diffDatabase_synced hwf
  refine ⟨hmain, fun n => ?_⟩
  rw [hmain]
  simp

/-- Witness for C2: a concrete well-formed Plan together with its
exactly matching Local state yields zero actions, also with a dirty
database that has no drift. -/
theorem equilibrium_zero_actions_witness :
    wfPlan c2WitnessPlan ∧
    diffPlanLocal c2WitnessPlan 0 ["db1", "nosuchdb"]
      (localOfPlan "SRV-A" c2WitnessPlan) "SRV-A" [] = [] :=
  ⟨by decide,
   (equilibrium_zero_actions c2WitnessPlan 0 ["db1", "nosuchdb"] "SRV-A" []
     (by decide)).1⟩

/-- C3: when shard S has an in-flight entry in the shard lock map
passed to diffPlanLocal, no emitted action carries S as its shard
property, whatever the Plan/Local disagreement on S is; the locked
shard is silently skipped (the diff is total: it produces no error
either). -/
theorem locked_shard_emits_no_action (plan : List (String × PlanDatabase))
    (pIdx : Nat) (dirty : List String)
    (localState : List (String × LocalDatabase)) (sid : String)
    (locks : List String) (s : String) (hs : locks.contains s = true) :
    ∀ a ∈ diffPlanLocal plan pIdx dirty localState sid locks,
      ¬ a.properties.lookup "shard" = some s := by
  intro a ha hshard
  obtain ⟨db, hdb, hada⟩ := List.mem_flatMap.mp ha
  have := (mem_diffDatabase_cases hada).2 s hshard
  rw [this] at hs
  cases hs

/-- Witness for C3: in a Plan with shards s1 (locked) and s2, the
action emitted for s2 does not carry the locked shard s1. -/
theorem locked_shard_emits_no_action_witness :
    ¬ (createCollectionAction "db3" "col1" "s2"
        c3WitnessCollection).properties.lookup "shard" = some "s1" :=
  locked_shard_emits_no_action c3WitnessPlan 0 ["db3"] c3WitnessLocal "SRV-A"
    ["s1"] "s1" (by decide)
    (createCollectionAction "db3" "col1" "s2" c3WitnessCollection) (by decide)

/-- C4: with the follower SRV-B removed from shard s77's Plan server
list, diffPlanLocal for the removed follower emits exactly one
DropCollection carrying database and shard, diffPlanLocal for the
remaining leader emits exactly one UpdateCollection carrying database,
shard and a followersToDrop property naming the removed server, and
diffPlanLocal for every other server emits zero actions: never a
DropCollection on the leader. -/
theorem follower_removal_asymmetry :
    diffPlanLocal c4Plan 0 ["_system"] c4LocalFollower "SRV-B" [] =
      [dropCollectionAction "_system" "s77"] ∧
    diffPlanLocal c4Plan 0 ["_system"] c4LocalLeader "SRV-A" [] =
      [updateCollectionAction "_system" "cbar" "s77" [] ["SRV-B"]] ∧
    diffPlanLocal c4Plan 0 ["_system"] c4LocalOtherServer "SRV-C" [] = [] ∧
    (updateCollectionAction "_system" "cbar" "s77" [] ["SRV-B"]).get
        "followersToDrop" = Except.ok "SRV-B" ∧
    (dropCollectionAction "_system" "s77").get "database" =
        Except.ok "_system" ∧
    (dropCollectionAction "_system" "s77").get "shard" = Except.ok "s77" := by
  refine ⟨by decide, by decide, by decide, by rfl, by rfl, by rfl⟩

/-- C5: for a shard present in both Plan and Local, in sync except for
collection properties, diffPlanLocal emits a single UpdateCollection
exactly when some field changed, and its payload is changedProps: it
contains a field if and only if the field is in the Plan with a value
differing from the local one, so no field with identical Plan and
Local values ever appears. -/
theorem update_payload_exactly_changed_fields
    (pp lp : List (String × String)) :
    diffPlanLocal (c5Plan pp) 0 ["db"] (c5Local lp) "SRV-A" [] =
      (if (changedProps pp lp).isEmpty then []
       else [updateCollectionAction "db" "c1" "s1" (changedProps pp lp) []]) ∧
    (∀ k v, (k, v) ∈ changedProps pp lp ↔
      ((k, v) ∈ pp ∧ ¬ lp.lookup k = some v)) := by
  constructor
  · cases h : changedProps pp lp with
    | nil =>
      simp [diffPlanLocal, dedupKeys, diffDatabase, c5Plan, c5Local,
        List.lookup, shardDiff, h, leadershipAction, planLeadership,
        localLeadership, stripResignMarker, hasResignMarker, assignedTo,
        planShardAssigned, primaryIndexId, droppedFollowers, indexActions]
    | cons kv rest =>
      simp [diffPlanLocal, dedupKeys, diffDatabase, c5Plan, c5Local,
        List.lookup, shardDiff, h, leadershipAction, planLeadership,
        localLeadership, stripResignMarker, hasResignMarker, assignedTo,
        planShardAssigned, primaryIndexId, droppedFollowers, indexActions]
  · intro k v
    simp [changedProps, List.mem_filter]

/-- C6: a database name absent from the dirty set is not processed:
every action diffPlanLocal emits carries a database property naming a
member of the dirty set (dirty is necessary); and in the concrete
scenario whose only drift is the extra local database db3, the call
with dirty set not containing db3 emits zero actions while the
identical call with db3 added emits exactly the corrective
DropDatabase for db3 (dirty alone is not sufficient: the drift-free
_system stays silent in both calls). -/
theorem dirty_gating_necessary_not_sufficient :
    (∀ (plan : List (String × PlanDatabase)) (pIdx : Nat)
      (dirty : List String) (localState : List (String × LocalDatabase))
      (sid : String) (locks : List String) (a : ActionDescription),
      a ∈ diffPlanLocal plan pIdx dirty localState sid locks →
      ∃ db ∈ dirty, a.properties.lookup "database" = some db) ∧
    diffPlanLocal c6Plan 0 ["_system"] c6Local "SRV-A" [] = [] ∧
    diffPlanLocal c6Plan 0 ["_system", "db3"] c6Local "SRV-A" [] =
      [dropDatabaseAction "db3"] := by
  refine ⟨?_, by decide, by decide⟩
  intro plan pIdx dirty localState sid locks a ha
  obtain ⟨db, hdb, hada⟩ := List.mem_flatMap.mp ha
  exact ⟨db, mem_dedupKeys.mp hdb, (mem_diffDatabase_cases hada).1⟩

/-- Witness for C6: the DropDatabase emitted in the dirty scenario
names a database of the dirty set. -/
theorem dirty_gating_necessary_not_sufficient_witness :
    ∃ db ∈ ["_system", "db3"],
      (dropDatabaseAction "db3").properties.lookup "database" = some db :=
  dirty_gating_necessary_not_sufficient.1 c6Plan 0 ["_system", "db3"] c6Local
    "SRV-A" [] (dropDatabaseAction "db3") (by decide)

/-- C7: a dirty database that exists locally but not in Plan yields
exactly one DropDatabase action naming it, whatever collections the
local database contains (collection-level diffing is skipped); and
symmetrically a database in Plan but absent locally yields exactly one
CreateDatabase action. -/
theorem database_existence_action_skips_collections :
    (∀ (plan : List (String × PlanDatabase)) (pIdx : Nat)
      (localState : List (String × LocalDatabase)) (d sid : String)
      (ldb : LocalDatabase) (locks : List String),
      plan.lookup d = none → localState.lookup d = some ldb →
      diffPlanLocal plan pIdx [d] localState sid locks =
        [dropDatabaseAction d]) ∧
    (∀ (plan : List (String × PlanDatabase)) (pIdx : Nat)
      (localState : List (String × LocalDatabase)) (d sid : String)
      (pdb : PlanDatabase) (locks : List String),
      plan.lookup d = some pdb → localState.lookup d = none →
      diffPlanLocal plan pIdx [d] localState sid locks =
        [createDatabaseAction d]) := by
  constructor
  · intro plan pIdx localState d sid ldb locks hp hl
    simp [diffPlanLocal, dedupKeys, hp, hl, diffDatabase]
  · intro plan pIdx localState d sid pdb locks hp hl
    simp [diffPlanLocal, dedupKeys, hp, hl, diffDatabase]

/-- Witness for C7: a non-empty local database db3 absent from the
Plan yields exactly the DropDatabase action, with no accompanying
DropCollection; and a Plan database absent locally yields exactly the
CreateDatabase action. -/
theorem database_existence_action_skips_collections_witness :
    diffPlanLocal ([] : List (String × PlanDatabase)) 0 ["db3"] c6Local
      "SRV-A" [] = [dropDatabaseAction "db3"] ∧
    diffPlanLocal c6Plan 0 ["_system"] ([] : List (String × LocalDatabase))
      "SRV-A" [] = [createDatabaseAction "_system"] :=
  ⟨database_existence_action_skips_collections.1 [] 0 c6Local "db3" "SRV-A"
     [("s99", c6SyncShard)] [] (by rfl) (by rfl),
   database_existence_action_skips_collections.2 c6Plan 0 [] "_system"
     "SRV-A" [("cbar", c6Collection)] [] (by rfl) (by rfl)⟩

/-- C8: with Plan database db3 holding collection x (one shard,
replication factor three over the three known servers) and each
server's local db3 empty, marking db3 dirty and diffing once per
server yields exactly one action per server, each named
CreateCollection: three CreateCollection actions in total. -/
theorem create_collection_per_server_scenario :
    diffPlanLocal c8Plan 0 ["db3"] c8Local "SRV-A" [] =
      [createCollectionAction "db3" "9000001" "s9000002" c8Collection] ∧
    diffPlanLocal c8Plan 0 ["db3"] c8Local "SRV-B" [] =
      [createCollectionAction "db3" "9000001" "s9000002" c8Collection] ∧
    diffPlanLocal c8Plan 0 ["db3"] c8Local "SRV-C" [] =
      [createCollectionAction "db3" "9000001" "s9000002" c8Collection] ∧
    ((diffPlanLocal c8Plan 0 ["db3"] c8Local "SRV-A" [] ++
      diffPlanLocal c8Plan 0 ["db3"] c8Local "SRV-B" [] ++
      diffPlanLocal c8Plan 0 ["db3"] c8Local "SRV-C" []).map
        ActionDescription.name) =
      ["CreateCollection", "CreateCollection", "CreateCollection"] := by
  refine ⟨by decide, by decide, by decide, by decide⟩

/-- C9: looking up a key absent from an ActionDescription's string
properties fails with the distinguishable keyNotFound error through
the throwing accessor, and through the non-throwing accessor leaves
the caller's empty output string empty and reports failure; a present
key yields its stored value through both accessors. -/
theorem actiondescription_get_missing_and_present
    (props : List (String × String)) (p : Int) (b : Bool)
    (payload : Option (List (String × String))) (key : String) :
    (props.lookup key = none →
      (ActionDescription.mk props p b payload).get key =
        Except.error (ActionError.keyNotFound key) ∧
      (ActionDescription.mk props p b payload).getOut key "" = (false, "")) ∧
    (∀ v, props.lookup key = some v →
      (ActionDescription.mk props p b payload).get key = Except.ok v ∧
      (ActionDescription.mk props p b payload).getOut key "" = (true, v)) := by
  constructor
  · intro h
    constructor <;> simp [ActionDescription.get, ActionDescription.getOut, h]
  · intro v h
    constructor <;> simp [ActionDescription.get, ActionDescription.getOut, h]

/-- Witness for C9: the accessors evaluated on the test's
ActionDescription with only a name property, at the absent key bogus
and at the present key name. -/
theorem actiondescription_get_missing_and_present_witness :
    ((ActionDescription.mk [("name", "SomeAction")] 1 false none).get "bogus" =
      Except.error (ActionError.keyNotFound "bogus") ∧
     (ActionDescription.mk [("name", "SomeAction")] 1 false none).getOut
        "bogus" "" = (false, "")) ∧
    ((ActionDescription.mk [("name", "SomeAction")] 1 false none).get "name" =
      Except.ok "SomeAction" ∧
     (ActionDescription.mk [("name", "SomeAction")] 1 false none).getOut
        "name" "" = (true, "SomeAction")) :=
  ⟨(actiondescription_get_missing_and_present [("name", "SomeAction")] 1 false
      none "bogus").1 (by rfl),
   (actiondescription_get_missing_and_present [("name", "SomeAction")] 1 false
      none "name").2 "SomeAction" (by rfl)⟩

/-- C10: index drift produces one action per locally present shard of
the collection: adding index i9 to the Plan yields one EnsureIndex per
shard the server holds locally (two for SRV-A holding s1 and s3, one
for SRV-B holding only s1, with no index action for its absent shard
s2), and removing i9 from the Plan yields one DropIndex per locally
present shard. -/
theorem index_actions_per_local_shard :
    diffPlanLocal c10Plan 0 ["dbx"] (c10LocalA ["iP"]) "SRV-A" [] =
      [ensureIndexAction "dbx" "c9" "s1" "i9",
       ensureIndexAction "dbx" "c9" "s3" "i9"] ∧
    diffPlanLocal c10Plan 0 ["dbx"] (c10LocalB ["iP"]) "SRV-B" [] =
      [ensureIndexAction "dbx" "c9" "s1" "i9",
       createCollectionAction "dbx" "c9" "s2" c10Collection] ∧
    ((diffPlanLocal c10Plan 0 ["dbx"] (c10LocalB ["iP"]) "SRV-B" []).filter
        (fun a => a.name == "EnsureIndex")) =
      [ensureIndexAction "dbx" "c9" "s1" "i9"] ∧
    diffPlanLocal c10PlanNoIdx 0 ["dbx"] (c10LocalA ["iP", "i9"]) "SRV-A" [] =
      [dropIndexAction "dbx" "c9" "s1" "i9",
       dropIndexAction "dbx" "c9" "s3" "i9"] := by
  refine ⟨by decide, by decide, by decide, by decide⟩

end ArangoMaintenance
